import Mathlib

/-!
Shallow embedding of the cgj-clicker bot (src/cgjclicker/bot.py) and proofs
about it.  Python runtime values and the stdlib behaviour the code relies on
(the regular-expression search for the two fixed patterns, json.loads,
datetime.fromisoformat, httpx request and raise_for_status semantics) are
modelled explicitly.  Machine floats are modelled as exact rationals,
datetimes and timedeltas as microsecond counts, and an exception propagating
to the caller is an `Except.error` carrying the exception kind.
-/

set_option maxRecDepth 100000

namespace Cgj

/-- Python exception kinds that the modelled code can raise or catch. -/
inductive PyErr where
  | jsonDecodeError
  | keyError
  | valueError
  | typeError
  | attributeError
  | indexError
  | requestError
  | httpStatusError (status : ℕ)
  deriving DecidableEq, Repr

/-- Python values produced by json.loads: None, bool, int, float, str,
list and dict (dict keys are strings in decoded JSON).  Floats are modelled
as exact rationals. -/
inductive PyJson where
  | null
  | bool (b : Bool)
  | int (n : ℤ)
  | float (q : ℚ)
  | str (s : List Char)
  | arr (elems : List PyJson)
  | obj (fields : List (List Char × PyJson))

/-- Python truthiness of a decoded JSON value. -/
def pyTruthy : PyJson → Bool
  | PyJson.null => false
  | PyJson.bool b => b
  | PyJson.int n => decide (n ≠ 0)
  | PyJson.float q => decide (q ≠ 0)
  | PyJson.str s => decide (s ≠ [])
  | PyJson.arr xs => !xs.isEmpty
  | PyJson.obj kvs => !kvs.isEmpty

/-- Python len() on a decoded JSON value; int, float, bool and None have no
len and raise TypeError.  A dict's len is its number of distinct keys. -/
def pyLen : PyJson → Except PyErr ℕ
  | PyJson.str s => Except.ok s.length
  | PyJson.arr xs => Except.ok xs.length
  | PyJson.obj kvs => Except.ok (kvs.map Prod.fst).dedup.length
  | _ => Except.error PyErr.typeError

/-- Python subscript v[0].  Lists and strings index their first element
(IndexError when empty); a dict looks up the integer key 0, which a decoded
JSON object (string keys only) never has, hence KeyError; other values are
not subscriptable and raise TypeError. -/
def pySubscriptZero : PyJson → Except PyErr PyJson
  | PyJson.arr [] => Except.error PyErr.indexError
  | PyJson.arr (x :: _) => Except.ok x
  | PyJson.str [] => Except.error PyErr.indexError
  | PyJson.str (c :: _) => Except.ok (PyJson.str [c])
  | PyJson.obj _ => Except.error PyErr.keyError
  | _ => Except.error PyErr.typeError

/-- Last binding of a key in an association list: later duplicate keys of a
decoded JSON object overwrite earlier ones, as in Python's dict building. -/
def lookupLast (kvs : List (List Char × PyJson)) (k : List Char) : Option PyJson :=
  match kvs with
  | [] => none
  | (k1, v) :: rest =>
    match lookupLast rest k with
    | some v2 => some v2
    | none => if k1 = k then some v else none

/-- Python d.get(key): defined on dicts only (None when the key is absent);
any other receiver has no get attribute and raises AttributeError. -/
def pyGet : PyJson → List Char → Except PyErr PyJson
  | PyJson.obj kvs, k => Except.ok ((lookupLast kvs k).getD PyJson.null)
  | _, _ => Except.error PyErr.attributeError

/-! ### The fixed regular-expression search of extract_next_click_time

The source searches html for
  data-controller="counter"\s+data-counter-events-value="([^"]*(?:\n[^"]*)*)"
with re.DOTALL.  The pattern has no dot, so DOTALL is inert, and since a
newline already lies in [^"], the capture is exactly the maximal run of
non-quote characters up to the next double quote.  re.search returns the
leftmost match; at a fixed position the match is deterministic because the
literal following \s+ does not start with a whitespace character, so no
backtracking can succeed where the greedy match fails. -/

/-- Whitespace characters matched by Python's \s (the ASCII ones; the claims
and witnesses stay in the ASCII domain). -/
def isPySpace (c : Char) : Bool :=
  c = ' ' || c = '\t' || c = '\n' || c = '\r' || c = '\x0b' || c = '\x0c'

/-- Match a literal character list at the head of the input, returning the
remainder on success. -/
def matchLit : List Char → List Char → Option (List Char)
  | [], rest => some rest
  | _ :: _, [] => none
  | p :: ps, c :: cs => if c = p then matchLit ps cs else none

/-- Drop a maximal run of whitespace characters. -/
def dropSpaces : List Char → List Char
  | [] => []
  | c :: cs => if isPySpace c then dropSpaces cs else c :: cs

/-- Match \s+ (at least one whitespace character, greedily). -/
def matchSpaces1 : List Char → Option (List Char)
  | [] => none
  | c :: cs => if isPySpace c then some (dropSpaces cs) else none

/-- Capture [^"]* followed by a closing double quote, returning the captured
group and the remainder. -/
def captureQuote : List Char → Option (List Char × List Char)
  | [] => none
  | c :: cs =>
    if c = '"' then some ([], cs)
    else
      match captureQuote cs with
      | some (g, r) => some (c :: g, r)
      | none => none

/-- First literal of the pattern. -/
def litCounter : List Char := ("data-controller=\"counter\"").toList

/-- Second literal of the pattern (up to the opening quote of the value). -/
def litValue : List Char := ("data-counter-events-value=\"").toList

/-- Attempt the whole pattern at the current position, returning the
captured attribute value. -/
def matchAt (l : List Char) : Option (List Char) :=
  match matchLit litCounter l with
  | none => none
  | some r1 =>
    match matchSpaces1 r1 with
    | none => none
    | some r2 =>
      match matchLit litValue r2 with
      | none => none
      | some r3 =>
        match captureQuote r3 with
        | some (g, _) => some g
        | none => none

/-- re.search for the counter pattern: try each start position left to
right, returning the first captured group. -/
def searchCounter : List Char → Option (List Char)
  | [] => none
  | c :: cs =>
    match matchAt (c :: cs) with
    | some g => some g
    | none => searchCounter cs

/-- json_str.replace of the entity &quot; by a double quote, left to right
and non-overlapping, as Python str.replace does. -/
def replaceQuot : List Char → List Char
  | '&' :: 'q' :: 'u' :: 'o' :: 't' :: ';' :: rest => '"' :: replaceQuot rest
  | c :: rest => c :: replaceQuot rest
  | [] => []

/-- json_str.replace of newlines by nothing. -/
def removeNewlines (l : List Char) : List Char :=
  l.filter (fun c => c ≠ '\n')

/-! ### json.loads

Modelled from Python's json.loads with its default flags on the standard
JSON grammar.  The non-standard NaN/Infinity literals and strings decoding
to lone surrogates lie outside the modelled domain and are treated as parse
errors; a Python float is kept as the exact rational the token denotes.
A parse failure is a JSONDecodeError; this includes trailing data after the
top-level value, as in Python. -/

/-- Value of a decimal digit, if the character is one. -/
def digVal (c : Char) : Option ℕ :=
  if 48 ≤ c.toNat ∧ c.toNat ≤ 57 then some (c.toNat - 48) else none

/-- Value of a hexadecimal digit, if the character is one. -/
def hexVal (c : Char) : Option ℕ :=
  if 48 ≤ c.toNat ∧ c.toNat ≤ 57 then some (c.toNat - 48)
  else if 97 ≤ c.toNat ∧ c.toNat ≤ 102 then some (c.toNat - 87)
  else if 65 ≤ c.toNat ∧ c.toNat ≤ 70 then some (c.toNat - 55)
  else none

/-- Take a maximal run of decimal digits. -/
def takeDigits : List Char → List ℕ × List Char
  | [] => ([], [])
  | c :: cs =>
    match digVal c with
    | some d =>
      match takeDigits cs with
      | (ds, r) => (d :: ds, r)
    | none => ([], c :: cs)

/-- Numeric value of a digit run. -/
def digitsToNat (ds : List ℕ) : ℕ :=
  ds.foldl (fun a d => a * 10 + d) 0

/-- Skip JSON whitespace (space, tab, newline, carriage return). -/
def skipWs : List Char → List Char
  | [] => []
  | c :: cs =>
    if c = ' ' ∨ c = '\t' ∨ c = '\n' ∨ c = '\r' then skipWs cs else c :: cs

/-- Read four hexadecimal digits. -/
def parseHex4 : List Char → Option (ℕ × List Char)
  | a :: b :: c :: d :: rest =>
    match hexVal a, hexVal b, hexVal c, hexVal d with
    | some x, some y, some z, some w => some (x * 4096 + y * 256 + z * 16 + w, rest)
    | _, _, _, _ => none
  | _ => none

/-- Expect a low-surrogate escape \uDC00..\uDFFF. -/
def parseLowSurrogate : List Char → Option (ℕ × List Char)
  | '\\' :: 'u' :: rest =>
    match parseHex4 rest with
    | some (n, r) => if 0xDC00 ≤ n ∧ n ≤ 0xDFFF then some (n, r) else none
    | none => none
  | _ => none

/-- Body of a JSON string after the opening quote: content and remainder
after the closing quote.  Strict mode: unescaped control characters are
rejected; surrogate escape pairs are combined (a lone surrogate is outside
the modelled domain). -/
def parseJStr : ℕ → List Char → Option (List Char × List Char)
  | 0, _ => none
  | _ + 1, [] => none
  | fuel + 1, c :: cs =>
    if c = '"' then some ([], cs)
    else if c = '\\' then
      match cs with
      | [] => none
      | e :: cs2 =>
        let cont := fun (ch : Char) (rest : List Char) =>
          match parseJStr fuel rest with
          | some (s, r) => some (ch :: s, r)
          | none => none
        if e = '"' then cont '"' cs2
        else if e = '\\' then cont '\\' cs2
        else if e = '/' then cont '/' cs2
        else if e = 'b' then cont '\x08' cs2
        else if e = 'f' then cont '\x0c' cs2
        else if e = 'n' then cont '\n' cs2
        else if e = 'r' then cont '\r' cs2
        else if e = 't' then cont '\t' cs2
        else if e = 'u' then
          match parseHex4 cs2 with
          | none => none
          | some (n, r) =>
            if 0xD800 ≤ n ∧ n ≤ 0xDBFF then
              match parseLowSurrogate r with
              | some (lo, r2) =>
                cont (Char.ofNat (0x10000 + (n - 0xD800) * 0x400 + (lo - 0xDC00))) r2
              | none => none
            else if 0xDC00 ≤ n ∧ n ≤ 0xDFFF then none
            else cont (Char.ofNat n) r
        else none
    else if c.toNat < 0x20 then none
    else
      match parseJStr fuel cs with
      | some (s, r) => some (c :: s, r)
      | none => none

/-- A JSON number token: -?(0|[1-9][0-9]*)(\.[0-9]+)?([eE][+-]?[0-9]+)?,
maximal munch per component as in Python's json tokenizer.  An integer
token yields a Python int, otherwise a float (kept exact). -/
def parseNumber (l : List Char) : Option (PyJson × List Char) :=
  let (neg, l1) : Bool × List Char :=
    match l with
    | '-' :: r => (true, r)
    | _ => (false, l)
  match l1 with
  | [] => none
  | c :: cs =>
    match digVal c with
    | none => none
    | some d =>
      let (ipart, r1) : List ℕ × List Char :=
        if d = 0 then ([0], cs)
        else
          match takeDigits cs with
          | (ds, r) => (d :: ds, r)
      let (fracDs, r2) : List ℕ × List Char :=
        match r1 with
        | '.' :: fs =>
          match takeDigits fs with
          | ([], _) => ([], r1)
          | (ds, r) => (ds, r)
        | _ => ([], r1)
      let (expNeg, expDs, r3) : Bool × List ℕ × List Char :=
        match r2 with
        | 'e' :: '+' :: es =>
          (match takeDigits es with
           | ([], _) => (false, [], r2)
           | (ds, r) => (false, ds, r))
        | 'E' :: '+' :: es =>
          (match takeDigits es with
           | ([], _) => (false, [], r2)
           | (ds, r) => (false, ds, r))
        | 'e' :: '-' :: es =>
          (match takeDigits es with
           | ([], _) => (false, [], r2)
           | (ds, r) => (true, ds, r))
        | 'E' :: '-' :: es =>
          (match takeDigits es with
           | ([], _) => (false, [], r2)
           | (ds, r) => (true, ds, r))
        | 'e' :: es =>
          (match takeDigits es with
           | ([], _) => (false, [], r2)
           | (ds, r) => (false, ds, r))
        | 'E' :: es =>
          (match takeDigits es with
           | ([], _) => (false, [], r2)
           | (ds, r) => (false, ds, r))
        | _ => (false, [], r2)
      if fracDs.isEmpty ∧ expDs.isEmpty then
        some (PyJson.int ((if neg then -1 else 1) * (digitsToNat ipart : ℤ)), r1)
      else
        let mant : ℤ :=
          (if neg then -1 else 1) *
            ((digitsToNat ipart * 10 ^ fracDs.length + digitsToNat fracDs : ℕ) : ℤ)
        let ex : ℤ :=
          (if expNeg then -(digitsToNat expDs : ℤ) else (digitsToNat expDs : ℤ)) -
            (fracDs.length : ℤ)
        some (PyJson.float ((mant : ℚ) * (10 : ℚ) ^ ex), r3)

mutual

/-- Parse one JSON value (after skipping leading whitespace). -/
def parseValue : ℕ → List Char → Option (PyJson × List Char)
  | 0, _ => none
  | fuel + 1, l =>
    match skipWs l with
    | [] => none
    | c :: cs =>
      if c = 'n' then
        match matchLit ("ull").toList cs with
        | some r => some (PyJson.null, r)
        | none => none
      else if c = 't' then
        match matchLit ("rue").toList cs with
        | some r => some (PyJson.bool true, r)
        | none => none
      else if c = 'f' then
        match matchLit ("alse").toList cs with
        | some r => some (PyJson.bool false, r)
        | none => none
      else if c = '"' then
        match parseJStr (cs.length + 1) cs with
        | some (s, r) => some (PyJson.str s, r)
        | none => none
      else if c = '[' then
        match skipWs cs with
        | ']' :: r => some (PyJson.arr [], r)
        | _ =>
          match parseArrItems fuel cs with
          | some (xs, r) => some (PyJson.arr xs, r)
          | none => none
      else if c = '\x7b' then
        match skipWs cs with
        | '\x7d' :: r => some (PyJson.obj [], r)
        | _ =>
          match parseObjItems fuel cs with
          | some (kvs, r) => some (PyJson.obj kvs, r)
          | none => none
      else parseNumber (c :: cs)

/-- Parse the comma-separated items of a non-empty array, up to and
including the closing bracket. -/
def parseArrItems : ℕ → List Char → Option (List PyJson × List Char)
  | 0, _ => none
  | fuel + 1, l =>
    match parseValue fuel l with
    | none => none
    | some (v, r) =>
      match skipWs r with
      | ',' :: r2 =>
        match parseArrItems fuel r2 with
        | some (vs, r3) => some (v :: vs, r3)
        | none => none
      | ']' :: r2 => some ([v], r2)
      | _ => none

/-- Parse the comma-separated members of a non-empty object, up to and
including the closing brace. -/
def parseObjItems : ℕ → List Char → Option (List (List Char × PyJson) × List Char)
  | 0, _ => none
  | fuel + 1, l =>
    match skipWs l with
    | '"' :: cs =>
      match parseJStr (cs.length + 1) cs with
      | none => none
      | some (k, r) =>
        match skipWs r with
        | ':' :: r2 =>
          match parseValue fuel r2 with
          | none => none
          | some (v, r3) =>
            match skipWs r3 with
            | ',' :: r4 =>
              match parseObjItems fuel r4 with
              | some (kvs, r5) => some ((k, v) :: kvs, r5)
              | none => none
            | '\x7d' :: r4 => some ([(k, v)], r4)
            | _ => none
        | _ => none
    | _ => none

end

/-- json.loads: parse one value and require only whitespace to follow;
`none` is a JSONDecodeError. -/
def jsonLoads (l : List Char) : Option PyJson :=
  match parseValue (2 * l.length + 2) l with
  | none => none
  | some (v, r) => if (skipWs r).isEmpty then some v else none

/-! ### datetime.fromisoformat and datetime arithmetic

Modelled from Python's datetime.fromisoformat (3.11 semantics) restricted to
the common forms YYYY-MM-DD, optionally followed by any single separator
character and HH:MM[:SS[.f{1,6}]], optionally followed by an offset Z or
±HH:MM[:SS].  Exotic ISO forms are outside the modelled domain and parse as
errors.  A datetime stores its wall-clock reading as microseconds since the
epoch plus an optional UTC offset in seconds; subtraction of two aware or two
naive datetimes yields their microsecond difference (offsets applied for the
aware pair), while mixing naive and aware raises TypeError, as in Python. -/

/-- A Python datetime: wall-clock microseconds since the epoch and optional
UTC offset in seconds (`none` = naive). -/
structure PyDatetime where
  wallMicros : ℤ
  offset : Option ℤ
  deriving DecidableEq, Repr

/-- Gregorian leap year. -/
def isLeap (y : ℕ) : Bool :=
  (y % 4 = 0 && y % 100 ≠ 0) || y % 400 = 0

/-- Days in a Gregorian month. -/
def daysInMonth (y m : ℕ) : ℕ :=
  if m = 2 then (if isLeap y then 29 else 28)
  else if m = 4 ∨ m = 6 ∨ m = 9 ∨ m = 11 then 30
  else 31

/-- Days from the epoch 1970-01-01 to the given civil date (valid for
years 1..9999, the fromisoformat range). -/
def daysFromCivil (y m d : ℕ) : ℤ :=
  let y' : ℤ := if m ≤ 2 then (y : ℤ) - 1 else (y : ℤ)
  let m' : ℤ := if 2 < m then (m : ℤ) - 3 else (m : ℤ) + 9
  let era : ℤ := y' / 400
  let yoe : ℤ := y' - era * 400
  let doy : ℤ := (153 * m' + 2) / 5 + (d : ℤ) - 1
  let doe : ℤ := yoe * 365 + yoe / 4 - yoe / 100 + doy
  era * 146097 + doe - 719468

/-- Read exactly two decimal digits. -/
def read2 : List Char → Option (ℕ × List Char)
  | a :: b :: rest =>
    match digVal a, digVal b with
    | some x, some y => some (x * 10 + y, rest)
    | _, _ => none
  | _ => none

/-- Read exactly four decimal digits. -/
def read4 : List Char → Option (ℕ × List Char)
  | a :: b :: c :: d :: rest =>
    match digVal a, digVal b, digVal c, digVal d with
    | some x, some y, some z, some w => some (x * 1000 + y * 100 + z * 10 + w, rest)
    | _, _, _, _ => none
  | _ => none

/-- Fractional seconds: one to six digits, scaled to microseconds. -/
def parseFrac (l : List Char) : Option (ℕ × List Char) :=
  match takeDigits l with
  | (ds, r) =>
    if ds.length = 0 ∨ 6 < ds.length then none
    else some (digitsToNat ds * 10 ^ (6 - ds.length), r)

/-- UTC offset body after the sign: HH:MM[:SS], yielding seconds.  The
offset must stay strictly below 24 hours. -/
def parseOffsetHMS (l : List Char) : Option (ℤ × List Char) :=
  match read2 l with
  | none => none
  | some (hh, r1) =>
    match r1 with
    | ':' :: r2 =>
      match read2 r2 with
      | none => none
      | some (mm, r3) =>
        if 23 < hh ∨ 59 < mm then none
        else
          match r3 with
          | ':' :: r4 =>
            match read2 r4 with
            | none => none
            | some (ss, r5) =>
              if 59 < ss then none
              else some (((hh * 3600 + mm * 60 + ss : ℕ) : ℤ), r5)
          | _ => some (((hh * 3600 + mm * 60 : ℕ) : ℤ), r3)
    | _ => none

/-- Time-of-day part HH:MM[:SS[.frac]] followed by an optional offset; the
whole remainder must be consumed. -/
def parseTimePart (l : List Char) : Option ((ℕ × ℕ × ℕ × ℕ) × Option ℤ) :=
  match read2 l with
  | none => none
  | some (hh, r1) =>
    match r1 with
    | ':' :: r2 =>
      match read2 r2 with
      | none => none
      | some (mm, r3) =>
        let secPart : Option ((ℕ × ℕ) × List Char) :=
          match r3 with
          | ':' :: r4 =>
            match read2 r4 with
            | none => none
            | some (ss, r5) =>
              match r5 with
              | '.' :: r6 =>
                match parseFrac r6 with
                | none => none
                | some (us, r7) => some ((ss, us), r7)
              | _ => some ((ss, 0), r5)
          | _ => some ((0, 0), r3)
        match secPart with
        | none => none
        | some ((ss, us), r8) =>
          if 23 < hh ∨ 59 < mm ∨ 59 < ss then none
          else
            match r8 with
            | [] => some ((hh, mm, ss, us), none)
            | 'Z' :: [] => some ((hh, mm, ss, us), some 0)
            | '+' :: r9 =>
              match parseOffsetHMS r9 with
              | some (off, []) => some ((hh, mm, ss, us), some off)
              | _ => none
            | '-' :: r9 =>
              match parseOffsetHMS r9 with
              | some (off, []) => some ((hh, mm, ss, us), some (-off))
              | _ => none
            | _ => none
    | _ => none

/-- datetime.fromisoformat on a character list; `none` is a ValueError. -/
def parseIso (l : List Char) : Option PyDatetime :=
  match read4 l with
  | none => none
  | some (y, r1) =>
    match r1 with
    | '-' :: r2 =>
      match read2 r2 with
      | none => none
      | some (m, r3) =>
        match r3 with
        | '-' :: r4 =>
          match read2 r4 with
          | none => none
          | some (d, r5) =>
            if y = 0 ∨ m = 0 ∨ 12 < m ∨ d = 0 ∨ daysInMonth y m < d then none
            else
              let dayMicros : ℤ := daysFromCivil y m d * 86400000000
              match r5 with
              | [] => some ⟨dayMicros, none⟩
              | _sep :: timeRest =>
                match parseTimePart timeRest with
                | none => none
                | some ((hh, mm, ss, us), off) =>
                  some ⟨dayMicros +
                    ((hh * 3600 + mm * 60 + ss : ℕ) : ℤ) * 1000000 + (us : ℤ), off⟩
        | _ => none
    | _ => none

/-- datetime.fromisoformat applied to a decoded JSON value: only a str is
accepted (TypeError otherwise), and an unparsable string is a ValueError. -/
def pyFromiso : PyJson → Except PyErr PyDatetime
  | PyJson.str s =>
    match parseIso s with
    | some d => Except.ok d
    | none => Except.error PyErr.valueError
  | _ => Except.error PyErr.typeError

/-- Subtraction of datetimes, yielding a timedelta in microseconds.  Both
naive: plain difference; both aware: difference of the UTC instants; mixed
awareness raises TypeError. -/
def pyDatetimeSub (a b : PyDatetime) : Except PyErr ℤ :=
  match a.offset, b.offset with
  | none, none => Except.ok (a.wallMicros - b.wallMicros)
  | some oa, some ob =>
    Except.ok ((a.wallMicros - oa * 1000000) - (b.wallMicros - ob * 1000000))
  | _, _ => Except.error PyErr.typeError

/-! ### extract_next_click_time (bot.py lines 33-88) -/

/-- Key "start-date". -/
def sdKey : List Char := ("start-date").toList

/-- Key "end-date". -/
def edKey : List Char := ("end-date").toList

/-- Body of the try block of extract_next_click_time: decode the JSON
events, guard the empty cases, read the first event's start and end dates,
parse them and subtract; the result is the timedelta in microseconds.  An
`Except.error` is an exception raised inside the try block. -/
def tryBody (s : List Char) : Except PyErr ℤ :=
  match jsonLoads s with
  | none => Except.error PyErr.jsonDecodeError
  | some events =>
    if pyTruthy events = false then Except.ok 0
    else
      match pyLen events with
      | Except.error e => Except.error e
      | Except.ok n =>
        if n = 0 then Except.ok 0
        else
          match pySubscriptZero events with
          | Except.error e => Except.error e
          | Except.ok event =>
            match pyGet event sdKey with
            | Except.error e => Except.error e
            | Except.ok sd =>
              match pyGet event edKey with
              | Except.error e => Except.error e
              | Except.ok ed =>
                if pyTruthy sd = false ∨ pyTruthy ed = false then Except.ok 0
                else
                  match pyFromiso sd with
                  | Except.error e => Except.error e
                  | Except.ok startDt =>
                    match pyFromiso ed with
                    | Except.error e => Except.error e
                    | Except.ok endDt =>
                      match pyDatetimeSub endDt startDt with
                      | Except.error e => Except.error e
                      | Except.ok td => if td ≤ 0 then Except.ok 0 else Except.ok td

/-- extract_next_click_time: regex search for the counter block (absence
means available now, timedelta 0), entity-decode and strip newlines, then
run the try block, catching exactly JSONDecodeError, KeyError and
ValueError as "available now".  Any other exception propagates. -/
def extract_next_click_time (html : List Char) : Except PyErr ℤ :=
  match searchCounter html with
  | none => Except.ok 0
  | some g =>
    match tryBody (removeNewlines (replaceQuot g)) with
    | Except.ok v => Except.ok v
    | Except.error PyErr.jsonDecodeError => Except.ok 0
    | Except.error PyErr.keyError => Except.ok 0
    | Except.error PyErr.valueError => Except.ok 0
    | Except.error e => Except.error e

/-! ### GameSession (bot.py lines 91-220)

The httpx transport is an oracle: each request either fails at the network
level (httpx.RequestError) or yields a response with a status code, a final
URL path (redirects already followed) and a body.  raise_for_status raises
httpx.HTTPStatusError for any non-2xx status; HTTPStatusError is a sibling
of RequestError under httpx.HTTPError, not a subclass of RequestError.
The CSRF-token extraction in login (lines 129-143) only shapes the POST
payload, which the transport oracle abstracts, so it cannot affect the
return value or the exception behaviour modelled here; likewise the stored
cookie jar.  A timestamp string and the resolved URL are carried opaquely. -/

/-- Outcome of one underlying HTTP request. -/
inductive HttpResult where
  | netFail
  | resp (status : ℕ) (urlPath : List Char) (text : List Char)
  deriving Repr

/-- Issue a request: a network fault raises httpx.RequestError. -/
def doRequest : HttpResult → Except PyErr (ℕ × List Char × List Char)
  | HttpResult.netFail => Except.error PyErr.requestError
  | HttpResult.resp st p t => Except.ok (st, p, t)

/-- response.raise_for_status(): raises httpx.HTTPStatusError unless the
status is a 2xx success. -/
def raiseForStatus (status : ℕ) : Except PyErr Unit :=
  if 200 ≤ status ∧ status ≤ 299 then Except.ok ()
  else Except.error (PyErr.httpStatusError status)

/-- An `except httpx.RequestError: return false` handler around a body
computing a bool. -/
def catchRequestErrorB (x : Except PyErr Bool) : Except PyErr Bool :=
  match x with
  | Except.error PyErr.requestError => Except.ok false
  | r => r

/-- URL path of the login page. -/
def loginPath : List Char := ("/security/login").toList

/-- GameSession.login over the transport oracle: GET the login page,
raise_for_status, POST the credentials, raise_for_status, then report
success iff the landing path is not the login page.  Only
httpx.RequestError is caught. -/
def login (getR postR : HttpResult) : Except PyErr Bool :=
  catchRequestErrorB
    (match doRequest getR with
     | Except.error e => Except.error e
     | Except.ok (s1, _, _) =>
       match raiseForStatus s1 with
       | Except.error e => Except.error e
       | Except.ok _ =>
         match doRequest postR with
         | Except.error e => Except.error e
         | Except.ok (s2, p2, _) =>
           match raiseForStatus s2 with
           | Except.error e => Except.error e
           | Except.ok _ => Except.ok (decide (p2 ≠ loginPath)))

/-- GameSession.click over the transport oracle: POST the action,
raise_for_status, then report whether the status is 200 or 302.  Only
httpx.RequestError is caught. -/
def click (r : HttpResult) : Except PyErr Bool :=
  catchRequestErrorB
    (match doRequest r with
     | Except.error e => Except.error e
     | Except.ok (s, _, _) =>
       match raiseForStatus s with
       | Except.error e => Except.error e
       | Except.ok _ => Except.ok (decide (s = 200 ∨ s = 302)))

/-- The dict returned by get_game_state (the timestamp field is an
uninterpreted clock reading, not modelled). -/
structure GameStateD where
  status : ℕ
  url : List Char
  next_click_in_seconds : Option ℚ
  deriving DecidableEq, Repr

/-- GameSession.get_game_state over the transport oracle: GET the game
page, raise_for_status, run the extractor on the body, and package the
result; a zero timedelta is falsy in Python, so the seconds field is then
None.  Only httpx.RequestError is caught (as None); an exception escaping
the extractor also escapes here. -/
def get_game_state (r : HttpResult) : Except PyErr (Option GameStateD) :=
  match
    (match doRequest r with
     | Except.error e => Except.error e
     | Except.ok (s, p, t) =>
       match raiseForStatus s with
       | Except.error e => Except.error e
       | Except.ok _ =>
         match extract_next_click_time t with
         | Except.error e => Except.error e
         | Except.ok delta =>
           Except.ok (some
             { status := s
               url := p
               next_click_in_seconds :=
                 if delta ≠ 0 then some ((delta : ℚ) / 1000000) else none }))
  with
  | Except.error PyErr.requestError => Except.ok none
  | Except.error e => Except.error e
  | Except.ok v => Except.ok v

/-! ### The humaniser jitter formula (bot.py lines 18-20)

The source draws x uniformly from [0, 113] and returns
1.2 * (2.9 ** x + 1) / (math.exp(x) * 1.5); the formula is modelled over the
reals, the random draw as the free variable x. -/

/-- Jitter value for a sample x. -/
noncomputable def humaniserFormula (x : ℝ) : ℝ :=
  1.2 * ((2.9 : ℝ) ^ x + 1) / (Real.exp x * 1.5)

/-! ### EnergyBot.run (bot.py lines 239-339)

The run loop is modelled as a function of a trace of oracle inputs: the
login outcome, the initial game-state fetch, and per iteration the fetched
state (None for a transport failure, otherwise the next_click_in_seconds
value), the elapsed-clock reading used by the duration check, the humaniser
output and the click outcome.  An operator interrupt is an input that can
occur at the top of an iteration.  Fuel bounds the number of loop entries;
exhausted fuel means the run is still looping (no exit has happened).  The
click counter is the EnergyBot.click_count attribute, 0 for a freshly
constructed bot and not reset by run.  The session methods' sentinel
results are the oracle values; their uncaught-exception paths are modelled
separately at the session layer above. -/

/-- The three optional limits handed to run. -/
structure RunConfig where
  click_interval : Option ℚ
  max_clicks : Option ℤ
  duration : Option ℚ
  deriving DecidableEq, Repr

/-- Oracle data consumed by one loop iteration that runs to its click. -/
structure IterStep where
  state : Option (Option ℚ)
  elapsed : ℚ
  jitter : ℚ
  clickOk : Bool
  deriving DecidableEq, Repr

/-- One iteration's input: either an operator interrupt observed at the top
of the iteration, or the data the iteration consumes. -/
inductive IterInput where
  | cancel
  | step (s : IterStep)
  deriving DecidableEq, Repr

/-- How the loop ended; fuelOut means the fuel ran out with the loop still
going (no exit has occurred). -/
inductive ExitReason where
  | maxClicks
  | durationLimit
  | cancelled
  | loginFailed
  | fuelOut
  deriving DecidableEq, Repr

/-- Observable events of a run. -/
inductive Event where
  | login (ok : Bool)
  | stateFetch (st : Option (Option ℚ))
  | waitComputed (t : ℚ)
  | click (ok : Bool)
  | report (clicks : ℤ) (elapsed : ℚ)
  deriving DecidableEq, Repr

/-- Result of the loop / the run: event trace, exit reason, final counter. -/
structure LoopOut where
  events : List Event
  exit : ExitReason
  count : ℤ
  deriving DecidableEq, Repr

/-- The `if max_clicks and self.click_count >= max_clicks` stop check:
a falsy (absent or zero) cap never stops. -/
def maxClicksStop (mc : Option ℤ) (count : ℤ) : Bool :=
  match mc with
  | none => false
  | some m => if m = 0 then false else decide (m ≤ count)

/-- The `if duration: ... elapsed >= duration` stop check: a falsy (absent
or zero) cap never stops. -/
def durationStop (d : Option ℚ) (elapsed : ℚ) : Bool :=
  match d with
  | none => false
  | some q => if q = 0 then false else decide (q ≤ elapsed)

/-- server_wait_time after lines 301-303: 0, replaced by
max(0, next_click_in_seconds) when the state is present and its
next_click_in_seconds value is truthy. -/
def computeServerWait (st : Option (Option ℚ)) : ℚ :=
  match st with
  | some (some q) => if q ≠ 0 then max 0 q else 0
  | _ => 0

/-- wait_time after lines 301-312: server wait plus humaniser output,
floored by click_interval when one was given and is positive. -/
def computeWait (click_interval : Option ℚ) (st : Option (Option ℚ)) (jitter : ℚ) : ℚ :=
  let server_wait_time := computeServerWait st + jitter
  let wait_time := server_wait_time
  match click_interval with
  | some i => if 0 < i then max wait_time i else wait_time
  | none => wait_time

/-- The while loop (lines 286-330).  Per entry: the two stop checks, then
the state fetch, the wait computation (the sleep itself is executed only
for a positive wait and passes no information, so the event records the
computed wait), then the click, incrementing the counter only on success. -/
def loopModel (cfg : RunConfig) : ℕ → List IterInput → ℤ → LoopOut
  | 0, _, count => ⟨[], ExitReason.fuelOut, count⟩
  | fuel + 1, inputs, count =>
    if maxClicksStop cfg.max_clicks count then ⟨[], ExitReason.maxClicks, count⟩
    else
      match inputs with
      | [] => ⟨[], ExitReason.fuelOut, count⟩
      | IterInput.cancel :: _ => ⟨[], ExitReason.cancelled, count⟩
      | IterInput.step s :: rest =>
        if durationStop cfg.duration s.elapsed then ⟨[], ExitReason.durationLimit, count⟩
        else
          let t := loopModel cfg fuel rest (if s.clickOk then count + 1 else count)
          ⟨Event.stateFetch s.state ::
             Event.waitComputed (computeWait cfg.click_interval s.state s.jitter) ::
             Event.click s.clickOk :: t.events,
           t.exit, t.count⟩

/-- Oracle inputs of one whole run. -/
structure RunInput where
  loginOk : Bool
  initState : Option (Option ℚ)
  iters : List IterInput
  finalElapsed : ℚ
  deriving DecidableEq, Repr

/-- EnergyBot.run: login (a failure returns at line 264, before the
try/finally, so no report is emitted), the initial state fetch, then the
loop; on any loop exit the finally block reports the totals once.  When the
fuel runs out the loop is still going, so no report has been emitted yet. -/
def runModel (cfg : RunConfig) (fuel : ℕ) (count0 : ℤ) (inp : RunInput) : LoopOut :=
  if inp.loginOk then
    let t := loopModel cfg fuel inp.iters count0
    if t.exit = ExitReason.fuelOut then
      ⟨Event.login true :: Event.stateFetch inp.initState :: t.events, t.exit, t.count⟩
    else
      ⟨Event.login true :: Event.stateFetch inp.initState ::
         (t.events ++ [Event.report t.count inp.finalElapsed]),
       t.exit, t.count⟩
  else ⟨[Event.login false], ExitReason.loginFailed, count0⟩

/-- Discriminators for counting trace events. -/
def Event.isClick : Event → Bool
  | Event.click _ => true
  | _ => false

/-- Report events. -/
def Event.isReport : Event → Bool
  | Event.report _ _ => true
  | _ => false

/-- Login events. -/
def Event.isLogin : Event → Bool
  | Event.login _ => true
  | _ => false

/-- Number of click attempts in a trace. -/
def countClicks (evs : List Event) : ℕ := evs.countP Event.isClick

/-- Number of final reports in a trace. -/
def countReports (evs : List Event) : ℕ := evs.countP Event.isReport

/-- Number of login attempts in a trace. -/
def countLogins (evs : List Event) : ℕ := evs.countP Event.isLogin

/-- An iteration input that reaches its click and succeeds. -/
def goodStep : IterInput → Bool
  | IterInput.step s => s.clickOk
  | IterInput.cancel => false

/-! ### Claim-side definitions (from the spec's words, for refinement) -/

/-- serverWait as the spec words it: max(0, cooldown seconds from the
fetched state), 0 when the state or its cooldown value is absent. -/
def claimServerWait (st : Option (Option ℚ)) : ℚ :=
  match st with
  | some (some q) => max 0 q
  | _ => 0

/-- The wait as the spec words it: serverWait plus jitter, then the maximum
with the configured minimum interval when a positive one is configured,
otherwise the sum as-is. -/
def claimWait (click_interval : Option ℚ) (st : Option (Option ℚ)) (jitter : ℚ) : ℚ :=
  let sum := claimServerWait st + jitter
  match click_interval with
  | some i => if 0 < i then max sum i else sum
  | none => sum

/-! ## Theorems -/

/-- The truthiness-gated server wait of the code equals the spec's
max(0, cooldown). -/
lemma computeServerWait_eq_claim (st : Option (Option ℚ)) :
    computeServerWait st = claimServerWait st := by
  cases st with
  | none => rfl
  | some o =>
    cases o with
    | none => rfl
    | some q =>
      by_cases h : q = 0
      · simp [computeServerWait, claimServerWait, h]
      · simp [computeServerWait, claimServerWait, h]

/-- C1.  Every iteration's wait equals serverWait plus jitter, floored by
the configured minimum interval when a positive one is configured and the
sum as-is otherwise, where serverWait is max(0, cooldown) when the fetched
state carries a cooldown and 0 when the state or the value is absent; in
particular with serverCooldown 5, floor 2 and any jitter j ≥ 0 the wait is
max(5 + j, 2), and with serverCooldown 0, floor 10, jitter 0 it is 10. -/
theorem run_wait_formula :
    (∀ (i : Option ℚ) (st : Option (Option ℚ)) (j : ℚ),
      computeWait i st j = claimWait i st j) ∧
    (∀ j : ℚ, 0 ≤ j →
      computeWait (some 2) (some (some 5)) j = max (5 + j) 2) ∧
    computeWait (some 10) (some (some 0)) 0 = 10 := by
  refine ⟨?_, ?_, ?_⟩
  · intro i st j
    unfold computeWait claimWait
    rw [computeServerWait_eq_claim]
  · intro j _
    unfold computeWait computeServerWait
    norm_num
  · unfold computeWait computeServerWait
    norm_num

/-- Witness for C1 at jitter 3. -/
theorem run_wait_formula_witness :
    (0 : ℚ) ≤ 3 ∧ computeWait (some 2) (some (some 5)) 3 = max (5 + 3) 2 :=
  ⟨by norm_num, run_wait_formula.2.1 3 (by norm_num)⟩

/-- Body whose counter payload is the JSON number 5: present but of an
unexpected shape. -/
def typeErrHtml : List Char :=
  ("<div data-controller=\"counter\" data-counter-events-value=\"5\"></div>").toList

/-- C3 evidence.  A present counter block whose payload decodes to a JSON
number reaches len() of an int and raises TypeError, which the except
clause (JSONDecodeError, KeyError, ValueError) does not catch, so the
exception propagates to the caller rather than degrading to zero; a
truncated payload, by contrast, is caught and degrades to zero. -/
theorem extract_typeerror_evidence :
    extract_next_click_time typeErrHtml = Except.error PyErr.typeError ∧
    extract_next_click_time
      ("<div data-controller=\"counter\" data-counter-events-value=\"[1,\"></div>").toList =
      Except.ok 0 :=
  ⟨rfl, rfl⟩

/-- C4 evidence.  raise_for_status turns a 4xx/5xx response into
httpx.HTTPStatusError, which is not a subclass of the caught
httpx.RequestError, so it propagates out of login, click and
get_game_state; a network-level fault, by contrast, is caught and reported
as the sentinel. -/
theorem session_http_status_evidence :
    login (HttpResult.resp 500 [] []) (HttpResult.resp 200 [] []) =
      Except.error (PyErr.httpStatusError 500) ∧
    click (HttpResult.resp 404 [] []) = Except.error (PyErr.httpStatusError 404) ∧
    get_game_state (HttpResult.resp 503 [] []) =
      Except.error (PyErr.httpStatusError 503) ∧
    login HttpResult.netFail (HttpResult.resp 200 [] []) = Except.ok false ∧
    click HttpResult.netFail = Except.ok false ∧
    get_game_state HttpResult.netFail = Except.ok none :=
  ⟨rfl, rfl, rfl, rfl, rfl, rfl⟩

/-- C6.  A failed login returns immediately: the run performs no click, no
second login, and terminates at once. -/
theorem login_failure_short_circuit (cfg : RunConfig) (fuel : ℕ) (count0 : ℤ)
    (inp : RunInput) (h : inp.loginOk = false) :
    runModel cfg fuel count0 inp =
      ⟨[Event.login false], ExitReason.loginFailed, count0⟩ ∧
    countClicks (runModel cfg fuel count0 inp).events = 0 ∧
    countLogins (runModel cfg fuel count0 inp).events = 1 := by
  have he : runModel cfg fuel count0 inp =
      ⟨[Event.login false], ExitReason.loginFailed, count0⟩ := by
    simp [runModel, h]
  exact ⟨he, by rw [he]; rfl, by rw [he]; rfl⟩

/-- Witness for C6. -/
theorem login_failure_short_circuit_witness :
    runModel ⟨none, none, none⟩ 3 0 ⟨false, none, [], 0⟩ =
      ⟨[Event.login false], ExitReason.loginFailed, 0⟩ ∧
    countClicks (runModel ⟨none, none, none⟩ 3 0 ⟨false, none, [], 0⟩).events = 0 ∧
    countLogins (runModel ⟨none, none, none⟩ 3 0 ⟨false, none, [], 0⟩).events = 1 :=
  login_failure_short_circuit ⟨none, none, none⟩ 3 0 ⟨false, none, [], 0⟩ rfl

/-- C8.  When the stop checks do not fire and the click fails, the counter
is left unchanged and the loop continues as the plain loop on the remaining
inputs: the only delay between the failed click and the next one is the
next iteration's normal computeWait. -/
theorem click_failure_continues (cfg : RunConfig) (fuel : ℕ) (s : IterStep)
    (rest : List IterInput) (count : ℤ)
    (h1 : maxClicksStop cfg.max_clicks count = false)
    (h2 : durationStop cfg.duration s.elapsed = false)
    (h3 : s.clickOk = false) :
    loopModel cfg (fuel + 1) (IterInput.step s :: rest) count =
      ⟨Event.stateFetch s.state ::
         Event.waitComputed (computeWait cfg.click_interval s.state s.jitter) ::
         Event.click false :: (loopModel cfg fuel rest count).events,
       (loopModel cfg fuel rest count).exit,
       (loopModel cfg fuel rest count).count⟩ := by
  simp [loopModel, h1, h2, h3]

/-- Witness for C8. -/
theorem click_failure_continues_witness :
    maxClicksStop (none : Option ℤ) 0 = false ∧
    loopModel ⟨none, none, none⟩ (0 + 1) (IterInput.step ⟨none, 0, 1, false⟩ :: []) 0 =
      ⟨Event.stateFetch none ::
         Event.waitComputed (computeWait none none 1) ::
         Event.click false :: (loopModel ⟨none, none, none⟩ 0 [] 0).events,
       (loopModel ⟨none, none, none⟩ 0 [] 0).exit,
       (loopModel ⟨none, none, none⟩ 0 [] 0).count⟩ :=
  ⟨rfl, click_failure_continues ⟨none, none, none⟩ 0 ⟨none, 0, 1, false⟩ [] 0 rfl rfl rfl⟩

/-- A zero click cap is falsy, so the loop behaves as with no cap. -/
lemma loop_mc_zero (ci : Option ℚ) (d : Option ℚ) (fuel : ℕ)
    (inputs : List IterInput) (count : ℤ) :
    loopModel ⟨ci, some 0, d⟩ fuel inputs count =
      loopModel ⟨ci, none, d⟩ fuel inputs count := by
  induction fuel generalizing inputs count with
  | zero => rfl
  | succ f ih =>
    cases inputs with
    | nil => rfl
    | cons i rest =>
      cases i with
      | cancel => rfl
      | step s =>
        by_cases hd : durationStop d s.elapsed = true
        · simp [loopModel, maxClicksStop, hd]
        · simp [loopModel, maxClicksStop, hd, ih]

/-- A zero duration cap is falsy, so the loop behaves as with no cap. -/
lemma loop_dur_zero (ci : Option ℚ) (mc : Option ℤ) (fuel : ℕ)
    (inputs : List IterInput) (count : ℤ) :
    loopModel ⟨ci, mc, some 0⟩ fuel inputs count =
      loopModel ⟨ci, mc, none⟩ fuel inputs count := by
  induction fuel generalizing inputs count with
  | zero => rfl
  | succ f ih =>
    cases inputs with
    | nil =>
      by_cases hm : maxClicksStop mc count = true
      · simp [loopModel, hm]
      · simp [loopModel, hm]
    | cons i rest =>
      by_cases hm : maxClicksStop mc count = true
      · simp [loopModel, hm]
      · cases i with
        | cancel => simp [loopModel, hm]
        | step s => simp [loopModel, hm, durationStop, ih]

/-- C10.  Passing max_clicks = 0 or duration = 0 behaves exactly as if the
corresponding limit were absent: the truthiness tests never fire a stop for
an explicit zero cap, so such a run is indistinguishable from an unlimited
one. -/
theorem zero_limits_ignored (ci : Option ℚ) (mc : Option ℤ) (d : Option ℚ)
    (fuel : ℕ) (count0 : ℤ) (inp : RunInput) :
    runModel ⟨ci, some 0, d⟩ fuel count0 inp = runModel ⟨ci, none, d⟩ fuel count0 inp ∧
    runModel ⟨ci, mc, some 0⟩ fuel count0 inp = runModel ⟨ci, mc, none⟩ fuel count0 inp := by
  constructor
  · simp [runModel, loop_mc_zero]
  · simp [runModel, loop_dur_zero]

/-- The loop itself never emits a report event; the single report comes
from the finally block. -/
lemma loop_no_report (cfg : RunConfig) (fuel : ℕ) (inputs : List IterInput)
    (count : ℤ) :
    countReports (loopModel cfg fuel inputs count).events = 0 := by
  induction fuel generalizing inputs count with
  | zero => rfl
  | succ f ih =>
    by_cases hm : maxClicksStop cfg.max_clicks count = true
    · simp [loopModel, hm, countReports]
    · cases inputs with
      | nil => simp [loopModel, hm, countReports]
      | cons i rest =>
        cases i with
        | cancel => simp [loopModel, hm, countReports]
        | step s =>
          by_cases hd : durationStop cfg.duration s.elapsed = true
          · simp [loopModel, hm, hd, countReports]
          · simp only [loopModel, hm, hd, Bool.false_eq_true, if_false]
            simp only [countReports, List.countP_cons, Event.isReport]
            simpa [countReports] using ih rest (if s.clickOk then count + 1 else count)

/-- C5 counterexample.  A run whose login fails returns before the
try/finally block, so the final metrics report is never emitted: zero
reports, not exactly one. -/
theorem run_report_skipped_on_login_failure :
    countReports (runModel ⟨none, none, none⟩ 3 0 ⟨false, none, [], 0⟩).events = 0 ∧
    (runModel ⟨none, none, none⟩ 3 0 ⟨false, none, [], 0⟩).exit =
      ExitReason.loginFailed :=
  ⟨rfl, rfl⟩

/-- C5 amended.  A run that passes login and whose loop exits (by a limit,
by cancellation, or any loop exit) reports the final metrics exactly once;
a run halted by failed login returns without emitting the report. -/
theorem run_reports_once (cfg : RunConfig) (fuel : ℕ) (count0 : ℤ) (inp : RunInput) :
    (inp.loginOk = false → countReports (runModel cfg fuel count0 inp).events = 0) ∧
    (inp.loginOk = true → (runModel cfg fuel count0 inp).exit ≠ ExitReason.fuelOut →
      countReports (runModel cfg fuel count0 inp).events = 1) := by
  constructor
  · intro h
    simp [runModel, h, countReports, Event.isReport]
  · intro h hexit
    by_cases hf : (loopModel cfg fuel inp.iters count0).exit = ExitReason.fuelOut
    · exact absurd (by simp [runModel, h, hf]) hexit
    · have := loop_no_report cfg fuel inp.iters count0
      simp only [countReports] at this ⊢
      simp [runModel, h, hf, List.countP_append, List.countP_cons, Event.isReport, this]

/-- Witness for C5's amended theorem: a successful two-iteration run that
stops at its click cap reports exactly once. -/
theorem run_reports_once_witness :
    (runModel ⟨none, some 1, none⟩ 3 0
        ⟨true, none, [IterInput.step ⟨none, 0, 0, true⟩,
          IterInput.step ⟨none, 0, 0, true⟩], 7⟩).exit ≠ ExitReason.fuelOut ∧
    countReports (runModel ⟨none, some 1, none⟩ 3 0
        ⟨true, none, [IterInput.step ⟨none, 0, 0, true⟩,
          IterInput.step ⟨none, 0, 0, true⟩], 7⟩).events = 1 :=
  ⟨by decide, (run_reports_once ⟨none, some 1, none⟩ 3 0
      ⟨true, none, [IterInput.step ⟨none, 0, 0, true⟩,
        IterInput.step ⟨none, 0, 0, true⟩], 7⟩).2 rfl (by decide)⟩

/-- With a positive cap m, no duration cap, and every remaining input a
successful click, a loop entered with counter m - k stops by the cap with
final counter m after exactly k more clicks. -/
lemma loop_maxclicks_aux (ci : Option ℚ) (m : ℤ) (hm : 0 < m) :
    ∀ (k fuel : ℕ) (inputs : List IterInput),
      (k : ℤ) ≤ m → k < fuel → k ≤ inputs.length → inputs.all goodStep = true →
      (loopModel ⟨ci, some m, none⟩ fuel inputs (m - (k : ℤ))).exit =
        ExitReason.maxClicks ∧
      (loopModel ⟨ci, some m, none⟩ fuel inputs (m - (k : ℤ))).count = m ∧
      countClicks (loopModel ⟨ci, some m, none⟩ fuel inputs (m - (k : ℤ))).events = k := by
  intro k
  induction k with
  | zero =>
    intro fuel inputs _ hf _ _
    obtain ⟨f, rfl⟩ : ∃ f, fuel = f + 1 := ⟨fuel - 1, by omega⟩
    have h0 : m - ((0 : ℕ) : ℤ) = m := by simp
    rw [h0]
    have hstop : maxClicksStop (some m) m = true := by
      have h1 : m ≠ 0 := by omega
      simp [maxClicksStop, h1]
    simp [loopModel, hstop, countClicks]
  | succ k ih =>
    intro fuel inputs hk hf hl hg
    obtain ⟨f, rfl⟩ : ∃ f, fuel = f + 1 := ⟨fuel - 1, by omega⟩
    cases inputs with
    | nil => simp at hl
    | cons i rest =>
      cases i with
      | cancel => simp [List.all_cons, goodStep] at hg
      | step s =>
        rw [List.all_cons] at hg
        have hpair := (Bool.and_eq_true _ _).mp hg
        have hck : s.clickOk = true := by simpa [goodStep] using hpair.1
        have hrest : rest.all goodStep = true := hpair.2
        have hlen : k ≤ rest.length := by
          simp at hl
          omega
        have hstop : maxClicksStop (some m) (m - ((k : ℤ) + 1)) = false := by
          have hle : ¬ (m ≤ m - ((k : ℤ) + 1)) := by omega
          simp [maxClicksStop, hle]
        have hcnt : m - ((k : ℤ) + 1) + 1 = m - (k : ℤ) := by ring
        have hrec := ih f rest (by omega) (by omega) hlen hrest
        have hunfold : loopModel ⟨ci, some m, none⟩ (f + 1)
            (IterInput.step s :: rest) (m - ((k + 1 : ℕ) : ℤ)) =
            ⟨Event.stateFetch s.state ::
               Event.waitComputed (computeWait ci s.state s.jitter) ::
               Event.click true ::
               (loopModel ⟨ci, some m, none⟩ f rest (m - (k : ℤ))).events,
             (loopModel ⟨ci, some m, none⟩ f rest (m - (k : ℤ))).exit,
             (loopModel ⟨ci, some m, none⟩ f rest (m - (k : ℤ))).count⟩ := by
          simp [loopModel, hstop, hck, hcnt, durationStop]
        rw [hunfold]
        refine ⟨hrec.1, hrec.2.1, ?_⟩
        simp [countClicks, List.countP_cons, Event.isClick]
        have := hrec.2.2
        simp only [countClicks] at this
        omega

/-- C7.  With a positive configured cap n, no duration cap and every click
succeeding, a fresh run performs exactly n clicks and stops by the cap. -/
theorem stop_by_max_clicks (ci : Option ℚ) (n fuel : ℕ) (inputs : List IterInput)
    (st0 : Option (Option ℚ)) (fe : ℚ)
    (hn : 0 < n) (hf : n < fuel) (hl : n ≤ inputs.length)
    (hg : inputs.all goodStep = true) :
    (runModel ⟨ci, some (n : ℤ), none⟩ fuel 0 ⟨true, st0, inputs, fe⟩).exit =
      ExitReason.maxClicks ∧
    (runModel ⟨ci, some (n : ℤ), none⟩ fuel 0 ⟨true, st0, inputs, fe⟩).count = (n : ℤ) ∧
    countClicks (runModel ⟨ci, some (n : ℤ), none⟩ fuel 0
      ⟨true, st0, inputs, fe⟩).events = n := by
  have key := loop_maxclicks_aux ci (n : ℤ) (by exact_mod_cast hn) n fuel inputs
    le_rfl hf hl hg
  rw [sub_self] at key
  simp only [countClicks] at key
  refine ⟨?_, ?_, ?_⟩ <;>
    simp [runModel, key.1, key.2.1, key.2.2, countClicks, List.countP_append,
      List.countP_cons, Event.isClick]

/-- Witness for C7: cap 3, three successful clicks. -/
theorem stop_by_max_clicks_witness :
    0 < 3 ∧
    ((runModel ⟨none, some ((3 : ℕ) : ℤ), none⟩ 4 0
        ⟨true, none, [IterInput.step ⟨none, 0, 0, true⟩, IterInput.step ⟨none, 0, 0, true⟩,
          IterInput.step ⟨none, 0, 0, true⟩], 9⟩).exit = ExitReason.maxClicks ∧
      (runModel ⟨none, some ((3 : ℕ) : ℤ), none⟩ 4 0
        ⟨true, none, [IterInput.step ⟨none, 0, 0, true⟩, IterInput.step ⟨none, 0, 0, true⟩,
          IterInput.step ⟨none, 0, 0, true⟩], 9⟩).count = ((3 : ℕ) : ℤ) ∧
      countClicks (runModel ⟨none, some ((3 : ℕ) : ℤ), none⟩ 4 0
        ⟨true, none, [IterInput.step ⟨none, 0, 0, true⟩, IterInput.step ⟨none, 0, 0, true⟩,
          IterInput.step ⟨none, 0, 0, true⟩], 9⟩).events = 3) :=
  ⟨by norm_num,
    stop_by_max_clicks none 3 4
      [IterInput.step ⟨none, 0, 0, true⟩, IterInput.step ⟨none, 0, 0, true⟩,
        IterInput.step ⟨none, 0, 0, true⟩] none 9
      (by norm_num) (by norm_num) (by norm_num) (by decide)⟩

/-- C9 counterexample.  The humaniser formula is not decreasing on the
sample range [0, 113]: since 2.9 exceeds e, the ratio 2.9^x / e^x grows,
and the value at 113 strictly exceeds the value at 0. -/
theorem humaniser_not_decreasing :
    humaniserFormula 0 < humaniserFormula 113 := by
  have h0 : humaniserFormula 0 = 1.6 := by
    unfold humaniserFormula
    rw [Real.rpow_zero, Real.exp_zero]
    norm_num
  have hEpos : (0 : ℝ) < Real.exp 1 := Real.exp_pos 1
  have hE : Real.exp 1 < 2.719 := lt_trans Real.exp_one_lt_d9 (by norm_num)
  have hexp : Real.exp 113 = Real.exp 1 ^ (113 : ℕ) := by
    rw [← Real.exp_nat_mul]
    norm_num
  have hcast : ((113 : ℕ) : ℝ) = (113 : ℝ) := by norm_num
  have hpow : (2.9 : ℝ) ^ (113 : ℝ) = (2.9 : ℝ) ^ (113 : ℕ) := by
    rw [← hcast, Real.rpow_natCast]
  have hEp : Real.exp 1 ^ (113 : ℕ) < (2.719 : ℝ) ^ (113 : ℕ) :=
    pow_lt_pow_left₀ hE (le_of_lt hEpos) (by norm_num)
  have key : (2.4 : ℝ) * (2.719 : ℝ) ^ (113 : ℕ) < 1.2 * ((2.9 : ℝ) ^ (113 : ℕ) + 1) := by
    norm_num
  rw [h0]
  unfold humaniserFormula
  rw [hpow, hexp, lt_div_iff₀ (by positivity)]
  nlinarith [hEp, key]

/-- C9 amended.  Over the sample range the jitter value is non-negative
(indeed for every real sample), and it is bounded above on [0, 113]; but it
is not a decreasing function of the sample there. -/
theorem humaniser_nonneg_bounded :
    (∀ x : ℝ, 0 ≤ humaniserFormula x) ∧
    (∀ x : ℝ, 0 ≤ x → x ≤ 113 →
      humaniserFormula x ≤ 1.2 * ((2.9 : ℝ) ^ (113 : ℝ) + 1) / 1.5) := by
  constructor
  · intro x
    unfold humaniserFormula
    positivity
  · intro x hx0 hx1
    unfold humaniserFormula
    have h29 : (2.9 : ℝ) ^ x ≤ (2.9 : ℝ) ^ (113 : ℝ) :=
      (Real.rpow_le_rpow_left_iff (by norm_num)).mpr hx1
    have hnum : 1.2 * ((2.9 : ℝ) ^ x + 1) ≤ 1.2 * ((2.9 : ℝ) ^ (113 : ℝ) + 1) := by
      nlinarith [h29]
    have hden : (1.5 : ℝ) ≤ Real.exp x * 1.5 := by
      nlinarith [Real.one_le_exp hx0]
    exact div_le_div₀ (by positivity) hnum (by norm_num) hden

/-- Witness for C9's amended theorem at the sample 1. -/
theorem humaniser_nonneg_bounded_witness :
    (0 : ℝ) ≤ 1 ∧ (1 : ℝ) ≤ 113 ∧
    0 ≤ humaniserFormula 1 ∧
    humaniserFormula 1 ≤ 1.2 * ((2.9 : ℝ) ^ (113 : ℝ) + 1) / 1.5 :=
  ⟨by norm_num, by norm_num, humaniser_nonneg_bounded.1 1,
    humaniser_nonneg_bounded.2 1 (by norm_num) (by norm_num)⟩

/-! ### C2: concrete well-formed body used by the witness -/

/-- A body with a well-formed counter block: one event, five seconds apart,
both timestamps timezone-aware. -/
def wfHtml : List Char :=
  ("<div data-controller=\"counter\" data-counter-events-value=\"[\x7b&quot;start-date&quot;: &quot;2024-03-01T10:00:00+00:00&quot;, &quot;end-date&quot;: &quot;2024-03-01T10:00:05+00:00&quot;\x7d]\"></div>").toList

/-- The captured attribute value of wfHtml. -/
def wfPayload : List Char :=
  ("[\x7b&quot;start-date&quot;: &quot;2024-03-01T10:00:00+00:00&quot;, &quot;end-date&quot;: &quot;2024-03-01T10:00:05+00:00&quot;\x7d]").toList

/-- The event's start timestamp. -/
def wfStart : List Char := ("2024-03-01T10:00:00+00:00").toList

/-- The event's end timestamp. -/
def wfEnd : List Char := ("2024-03-01T10:00:05+00:00").toList

/-- The decoded first (and only) event of wfHtml. -/
def wfKvs : List (List Char × PyJson) :=
  [(sdKey, PyJson.str wfStart), (edKey, PyJson.str wfEnd)]

/-- The parsed start datetime of wfHtml. -/
def wfD1 : PyDatetime := ⟨(daysFromCivil 2024 3 1 * 86400 + 36000) * 1000000, some 0⟩

/-- The parsed end datetime of wfHtml. -/
def wfD2 : PyDatetime := ⟨(daysFromCivil 2024 3 1 * 86400 + 36005) * 1000000, some 0⟩

/-- C2.  A body with no counter block yields zero duration; a body whose
counter block decodes to a non-empty event array whose first event carries
parseable, timezone-aware start-date and end-date strings yields the
duration end minus start of that first event when positive and zero
otherwise. -/
theorem extract_cooldown_spec :
    (∀ html : List Char, searchCounter html = none →
      extract_next_click_time html = Except.ok 0) ∧
    (∀ (html g : List Char) (kvs : List (List Char × PyJson)) (rest : List PyJson)
      (ss es : List Char) (d1 d2 : PyDatetime) (o1 o2 : ℤ),
      searchCounter html = some g →
      jsonLoads (removeNewlines (replaceQuot g)) =
        some (PyJson.arr (PyJson.obj kvs :: rest)) →
      lookupLast kvs sdKey = some (PyJson.str ss) →
      lookupLast kvs edKey = some (PyJson.str es) →
      pyFromiso (PyJson.str ss) = Except.ok d1 →
      pyFromiso (PyJson.str es) = Except.ok d2 →
      d1.offset = some o1 → d2.offset = some o2 →
      extract_next_click_time html =
        Except.ok
          (if 0 < (d2.wallMicros - o2 * 1000000) - (d1.wallMicros - o1 * 1000000)
           then (d2.wallMicros - o2 * 1000000) - (d1.wallMicros - o1 * 1000000)
           else 0)) := by
  constructor
  · intro html h
    simp [extract_next_click_time, h]
  · intro html g kvs rest ss es d1 d2 o1 o2 hsearch hjson hsd hed hp1 hp2 ho1 ho2
    have hss : ss ≠ [] := by
      rintro rfl
      simp [pyFromiso, parseIso, read4] at hp1
    have hes : es ≠ [] := by
      rintro rfl
      simp [pyFromiso, parseIso, read4] at hp2
    have hsub : pyDatetimeSub d2 d1 =
        Except.ok ((d2.wallMicros - o2 * 1000000) - (d1.wallMicros - o1 * 1000000)) := by
      simp [pyDatetimeSub, ho1, ho2]
    have hbody : tryBody (removeNewlines (replaceQuot g)) =
        Except.ok
          (if 0 < (d2.wallMicros - o2 * 1000000) - (d1.wallMicros - o1 * 1000000)
           then (d2.wallMicros - o2 * 1000000) - (d1.wallMicros - o1 * 1000000)
           else 0) := by
      simp only [tryBody, hjson, pyTruthy, pyLen, pySubscriptZero, pyGet, hsd, hed,
        Option.getD_some, hp1, hp2, hsub, List.isEmpty_cons, Bool.not_false,
        List.length_cons]
      rcases le_or_lt ((d2.wallMicros - o2 * 1000000) - (d1.wallMicros - o1 * 1000000)) 0
        with hle | hlt
      · simp [hss, hes, hle, not_lt.mpr hle]
      · simp [hss, hes, hlt, not_le.mpr hlt]
    simp [extract_next_click_time, hsearch, hbody]

/-- Witness for C2 on the concrete well-formed body: the cooldown is the
five-second difference. -/
theorem extract_cooldown_spec_witness :
    searchCounter wfHtml = some wfPayload ∧
    extract_next_click_time wfHtml =
      Except.ok
        (if 0 < (wfD2.wallMicros - 0 * 1000000) - (wfD1.wallMicros - 0 * 1000000)
         then (wfD2.wallMicros - 0 * 1000000) - (wfD1.wallMicros - 0 * 1000000)
         else 0) :=
  ⟨rfl,
    extract_cooldown_spec.2 wfHtml wfPayload wfKvs [] wfStart wfEnd wfD1 wfD2 0 0
      rfl rfl rfl rfl rfl rfl rfl rfl⟩

end Cgj
